import Mathlib

/-!
# Session authentication guard — verification of the spec against the source

A shallow embedding of `src/Schemes/Session.js` (the `SessionScheme` class of the
adonis-auth session guard). JavaScript values that flow through the guard (the
remember duration, primary-key values, session entries, cookies) are modelled by
the inductive `JSVal`, with JavaScript truthiness made explicit. Asynchronous
collaborator calls (the serializer / user provider and the `ms` parser) are
modelled as pure functions bundled in an `Env`; the per-request mutable state
(the guard's fields plus the session store and cookie stores it drives) is the
structure `AuthState`, threaded explicitly. The `uuid.v4()` call is modelled by
passing the fresh token value as an argument.

The base scheme (`./Base`) and the exceptions module are not among the sources;
the few members they contribute (`this.user` storage, `primaryKeyValue`,
`viaRemember`, the exception kinds) are modelled from the spec and marked as
such in their doc comments.
-/

namespace AdonisAuth

/-- A JavaScript value as it flows through the guard: `undefined`, a boolean,
a number (integers suffice for every value the guard handles), or a string. -/
inductive JSVal where
  | undef
  | bool (b : Bool)
  | num (n : Int)
  | str (s : String)
deriving DecidableEq, Repr

/-- JavaScript truthiness of a `JSVal`: `undefined`, `false`, `0` and the empty
string are falsy, everything else is truthy. -/
def truthy : JSVal → Bool
  | JSVal.undef => false
  | JSVal.bool b => b
  | JSVal.num n => n != 0
  | JSVal.str s => s != ""

/-- A user object, opaque to the guard beyond its primary-key value
(`null`/absent is modelled as `JSVal.undef`). -/
structure User where
  id : JSVal
deriving DecidableEq, Repr

/-- The external collaborators of the guard, modelled as pure functions: the
configuration entries the messages use, the serializer (user provider) lookups,
and the `ms` duration-string parser (which yields `undefined` on bad input). -/
structure Env where
  uidField : String
  primaryKeyField : String
  findByUid : String → Option User
  validateCredentails : User → String → Bool
  findById : JSVal → Option User
  findByRememberToken : JSVal → Option User
  ms : String → JSVal

/-- The outgoing-response cookie slot for the remember-token key: untouched by
the guard so far, set to a token with an expiry, or explicitly cleared. -/
inductive CookieOut where
  | untouched
  | setTo (value : String) (expires : JSVal)
  | cleared
deriving DecidableEq, Repr

/-- The per-request state the guard reads and writes: `user` and `viaRemember`
(the GuardState of the spec; the `viaRemember` field lives in the base scheme,
which is not among the sources, and is modelled from the spec),
`rememberTokenDuration` (the current value of the `Resetable`, constructed with
original value `0`), the session-store entry under the guard's session key, the
incoming request cookie under the remember-token key (never written by the
guard), the outgoing response cookie under that key, and the list of remember
tokens the serializer was asked to persist. -/
structure AuthState where
  user : Option User
  viaRemember : Bool
  rememberTokenDuration : JSVal
  session : Option JSVal
  reqCookie : JSVal
  respCookie : CookieOut
  savedTokens : List (User × String)
deriving DecidableEq, Repr

/-- The typed failures the guard raises. `userNotFound` and `passwordMisMatch`
carry the message built by `Session.js`; `alreadyAuthenticated` and
`missingUid` are the `RuntimeException` variants raised by `login` (the
exceptions module is not among the sources; the kinds are modelled from the
spec's `AlreadyAuthenticated` / `MissingIdentifier`). -/
inductive AuthError where
  | userNotFound (message : String)
  | passwordMisMatch (message : String)
  | alreadyAuthenticated
  | missingUid
deriving DecidableEq, Repr

/-- Modelled from the spec (the base scheme is not among the sources): the
primary-key value of the current user, absent when no user is set. -/
def primaryKeyValue (s : AuthState) : JSVal :=
  match s.user with
  | some u => u.id
  | none => JSVal.undef

/-- The result of `validate`: either the user (when `returnUser` is truthy) or
the boolean `!!user`. -/
inductive VRes where
  | usr (u : User)
  | flag (b : Bool)
deriving DecidableEq, Repr

/-- Embedding of `SessionScheme._setSession`: writes the primary-key value
under the session key, and sets the remember cookie when both a token and a
truthy duration are given (a `uuid.v4()` token is a nonempty string, hence its
truthiness is `tok ≠ ""`). -/
def _setSession (s : AuthState) (pkValue : JSVal) (rememberToken : Option String)
    (duration : JSVal) : AuthState :=
  let s1 := { s with session := some pkValue }
  match rememberToken with
  | some tok =>
      if tok ≠ "" ∧ truthy duration then
        { s1 with respCookie := CookieOut.setTo tok duration }
      else s1
  | none => s1

/-- Embedding of `SessionScheme._removeSession`: forgets the session entry and
clears the remember cookie on the response. -/
def _removeSession (s : AuthState) : AuthState :=
  { s with session := none, respCookie := CookieOut.cleared }

/-- Embedding of `SessionScheme.remember`: `true` or the literal `1` arm the
five-year default, a string is fed to `ms`, any other value distinct from `0`
and `false` is stored as given, and `0` / `false` fall through every branch,
leaving the `Resetable` untouched. -/
def remember (e : Env) (s : AuthState) (duration : JSVal) : AuthState :=
  if duration = JSVal.bool true ∨ duration = JSVal.num 1 then
    { s with rememberTokenDuration := e.ms "5y" }
  else
    match duration with
    | JSVal.str d => { s with rememberTokenDuration := e.ms d }
    | _ =>
        if duration ≠ JSVal.num 0 ∧ duration ≠ JSVal.bool false then
          { s with rememberTokenDuration := duration }
        else s

/-- Embedding of `SessionScheme.login`. Mirrors the source order: the
already-authenticated check, then the assignment `this.user = user`, then the
primary-key truthiness check, then `Resetable.pull()` (which resets the
duration to the construction value `0`), then the optional
`saveRememberToken` call, then `_setSession`. The fresh `uuid.v4()` value is
the argument `tok`. -/
def login (_e : Env) (s : AuthState) (user : User) (tok : String) :
    AuthState × Except AuthError User :=
  if s.user.isSome then (s, Except.error AuthError.alreadyAuthenticated)
  else
    let s1 := { s with user := some user }
    if ¬ truthy (primaryKeyValue s1) then (s1, Except.error AuthError.missingUid)
    else
      let duration := s1.rememberTokenDuration
      let s2 := { s1 with rememberTokenDuration := JSVal.num 0 }
      let rememberToken : Option String := if truthy duration then some tok else none
      let s3 :=
        match rememberToken with
        | some t => { s2 with savedTokens := (user, t) :: s2.savedTokens }
        | none => s2
      (_setSession s3 (primaryKeyValue s3) rememberToken duration, Except.ok user)

/-- Embedding of `SessionScheme.validate`: uid lookup (raising `userNotFound`
with the interpolated message), password verification (raising
`passwordMisMatch`), then `returnUser ? user : !!user`. It reads no guard
state, so it takes and returns none. -/
def validate (e : Env) (uid password : String) (returnUser : Bool) :
    Except AuthError VRes :=
  match e.findByUid uid with
  | none =>
      Except.error (AuthError.userNotFound
        ("Cannot find user with " ++ e.uidField ++ " as " ++ uid))
  | some user =>
      if ¬ e.validateCredentails user password then
        Except.error (AuthError.passwordMisMatch "Cannot verify user password")
      else
        Except.ok (if returnUser then VRes.usr user else VRes.flag true)

/-- Embedding of `SessionScheme.attempt`: `validate(uid, password, true)` then
`login` on the returned user. The `flag` branch is unreachable, because
`validate` with `returnUser = true` only ever returns a `usr` value
(`validate_true_gives_user`); its value is arbitrary. -/
def attempt (e : Env) (s : AuthState) (uid password tok : String) :
    AuthState × Except AuthError User :=
  match validate e uid password true with
  | Except.error err => (s, Except.error err)
  | Except.ok (VRes.usr user) => login e s user tok
  | Except.ok (VRes.flag _) => (s, Except.error AuthError.missingUid)

/-- Modelled from the spec: `attempt` as the spec words it — the composition
`validate(uid, password, returnUser=true)` then `login(user)`, propagating
either step's failure unchanged. Stated from the spec's words for comparison
with the source's `attempt`; the unreachable `flag` branch is filled the same
way. -/
def attemptFromSpec (e : Env) (s : AuthState) (uid password tok : String) :
    AuthState × Except AuthError User :=
  match validate e uid password true with
  | Except.error err => (s, Except.error err)
  | Except.ok (VRes.usr user) => login e s user tok
  | Except.ok (VRes.flag _) => (s, Except.error AuthError.missingUid)

/-- Embedding of `SessionScheme.loginViaId`: primary-key lookup, raising
`userNotFound` with the interpolated message on absence, then `login`. -/
def loginViaId (e : Env) (s : AuthState) (id : JSVal) (tok : String) :
    AuthState × Except AuthError User :=
  match e.findById id with
  | none =>
      (s, Except.error (AuthError.userNotFound
        ("Cannot find user with " ++ e.primaryKeyField ++ " as " ++
          (match id with
           | JSVal.undef => "undefined"
           | JSVal.bool b => if b then "true" else "false"
           | JSVal.num n => toString n
           | JSVal.str v => v))))
  | some user => login e s user tok

/-- Embedding of `SessionScheme.logout`: `this.user = null` then
`_removeSession()`. The clearing of `viaRemember` is modelled from the spec:
the base scheme holding that flag is not among the sources, and the spec states
that logout unconditionally resets it to false. -/
def logout (s : AuthState) : AuthState :=
  _removeSession { s with user := none, viaRemember := false }

/-- Embedding of `SessionScheme.check`. The source calls `this.login(user)` on
the remember-token path without awaiting it: the login body runs (it contains
no suspension point before its only `await`, which is skipped when no duration
is pending, and a thrown error only rejects the discarded promise), so its
state effects are kept and its failure is discarded, and `check` returns
`!!user` regardless. -/
def check (e : Env) (s : AuthState) (tok : String) : AuthState × Bool :=
  if s.user.isSome then (s, true)
  else
    let sessionValue := s.session.getD JSVal.undef
    let rememberMeToken := s.reqCookie
    if truthy sessionValue then
      let u := e.findById sessionValue
      ({ s with user := u }, u.isSome)
    else if truthy rememberMeToken then
      match e.findByRememberToken rememberMeToken with
      | some user => ((login e s user tok).1, true)
      | none => (s, false)
    else (s, false)

/-- Embedding of `SessionScheme.getUser`: runs `check` for its side effects,
then returns the current user. -/
def getUser (e : Env) (s : AuthState) (tok : String) : AuthState × Option User :=
  let s1 := (check e s tok).1
  (s1, s1.user)

/-- The guard state at the start of a request: empty GuardState, the
`Resetable` at its construction value `0`, nothing persisted yet. -/
def emptyState : AuthState :=
  { user := none
    viaRemember := false
    rememberTokenDuration := JSVal.num 0
    session := none
    reqCookie := JSVal.undef
    respCookie := CookieOut.untouched
    savedTokens := [] }

/-- A concrete environment used to evaluate the theorems on concrete inputs:
one known user "alice" with primary key `1` and password "correct-pw", a
remember token "tok123", and an `ms` that parses only "5y". -/
def env0 : Env :=
  { uidField := "email"
    primaryKeyField := "id"
    findByUid := fun uid => if uid = "alice" then some ⟨JSVal.num 1⟩ else none
    validateCredentails := fun _ pw => pw = "correct-pw"
    findById := fun v => if v = JSVal.num 1 then some ⟨JSVal.num 1⟩ else none
    findByRememberToken := fun t =>
      if t = JSVal.str "tok123" then some ⟨JSVal.num 1⟩
      else if t = JSVal.str "ghost" then some ⟨JSVal.undef⟩
      else none
    ms := fun d => if d = "5y" then JSVal.num 157788000000 else JSVal.undef }

/-- A state in which a user is already logged in. -/
def sAuth : AuthState := { emptyState with user := some ⟨JSVal.num 1⟩ }

/-- A state with an unconsumed five-year remember duration pending. -/
def sPend : AuthState :=
  { emptyState with rememberTokenDuration := JSVal.num 157788000000 }

/-- A state in which only a valid session key is present. -/
def sSess : AuthState := { emptyState with session := some (JSVal.num 1) }

/-- A state in which only a valid remember token is present. -/
def sRem : AuthState := { emptyState with reqCookie := JSVal.str "tok123" }

/-- A state whose incoming remember token resolves to a user without a usable
primary-key value. -/
def sGhost : AuthState := { emptyState with reqCookie := JSVal.str "ghost" }

/-- A state whose session key holds an id that no longer resolves to a user. -/
def sStale : AuthState := { emptyState with session := some (JSVal.num 99) }

/-!
## Shared lemmas
-/

/-- The absent value is falsy. -/
@[simp] lemma truthy_undef : truthy JSVal.undef = false := rfl

/-- When no remember duration is pending (a falsy `Resetable` value), `login`
persists no remember token and writes no remember cookie. -/
lemma login_falsy_no_token (e : Env) (s : AuthState) (u : User) (tok : String)
    (h : truthy s.rememberTokenDuration = false) :
    (login e s u tok).1.savedTokens = s.savedTokens ∧
    (login e s u tok).1.respCookie = s.respCookie := by
  by_cases hu : s.user.isSome
  · simp [login, hu]
  · by_cases hpk : truthy (primaryKeyValue { s with user := some u }) = true
    · simp [login, hu, hpk, _setSession, h]
    · simp [login, hu, hpk]

/-- From an anonymous state and a user with a truthy primary-key value,
`login` succeeds: it returns the user, sets `GuardState.user`, writes the
primary-key value into the session, resets the remember duration, and leaves
`viaRemember` and the incoming cookie alone. -/
lemma login_success_state (e : Env) (s : AuthState) (u : User) (tok : String)
    (h1 : s.user = none) (h2 : truthy u.id = true) :
    (login e s u tok).2 = Except.ok u ∧
    (login e s u tok).1.user = some u ∧
    (login e s u tok).1.session = some u.id ∧
    (login e s u tok).1.rememberTokenDuration = JSVal.num 0 ∧
    (login e s u tok).1.viaRemember = s.viaRemember ∧
    (login e s u tok).1.reqCookie = s.reqCookie := by
  have hu : s.user.isSome = false := by rw [h1]; rfl
  by_cases hd : truthy s.rememberTokenDuration = true
  · by_cases ht : tok = "" <;>
      simp [login, hu, primaryKeyValue, h2, hd, _setSession, ht]
  · simp at hd
    simp [login, hu, primaryKeyValue, h2, hd, _setSession]

/-- When `login` is handed a user whose primary-key value is falsy from an
anonymous state, it raises `missingUid`, but only after the assignment
`this.user = user` has happened; nothing else changes (in particular the
remember duration is not yet consumed). -/
lemma login_missing_pk_state (e : Env) (s : AuthState) (u : User) (tok : String)
    (h1 : s.user = none) (h2 : truthy u.id = false) :
    login e s u tok = ({ s with user := some u }, Except.error AuthError.missingUid) := by
  have hu : s.user.isSome = false := by rw [h1]; rfl
  simp [login, hu, primaryKeyValue, h2]

/-- `validate` with `returnUser = true` never returns the boolean result; its
only successful outcome is the user itself. -/
lemma validate_true_gives_user (e : Env) (uid password : String) (b : Bool) :
    validate e uid password true ≠ Except.ok (VRes.flag b) := by
  unfold validate
  match e.findByUid uid with
  | none => simp
  | some u =>
      by_cases hc : e.validateCredentails u password = true
      · simp [hc]
      · simp [hc]

/-!
## Claim theorems
-/

/-- C1: for every guard state in which `GuardState.user` is already set, a call
to `login` with a second user raises `AlreadyAuthenticated` and leaves the
whole state — the guard's user and the persisted session included — exactly as
it was, with the user still the one set by the first login. -/
theorem login_twice_raises_alreadyAuthenticated (e : Env) (s : AuthState)
    (u1 u2 : User) (tok : String) (h : s.user = some u1) :
    login e s u2 tok = (s, Except.error AuthError.alreadyAuthenticated) ∧
    (login e s u2 tok).1.user = some u1 := by
  have hu : s.user.isSome = true := by rw [h]; rfl
  refine ⟨by simp [login, hu], ?_⟩
  simp [login, hu, h]

/-- C1 witness: a concrete already-authenticated state. -/
theorem login_twice_raises_alreadyAuthenticated_witness :
    login env0 sAuth ⟨JSVal.num 2⟩ "t1" =
      (sAuth, Except.error AuthError.alreadyAuthenticated) ∧
    (login env0 sAuth ⟨JSVal.num 2⟩ "t1").1.user = some ⟨JSVal.num 1⟩ :=
  login_twice_raises_alreadyAuthenticated env0 sAuth ⟨JSVal.num 1⟩ ⟨JSVal.num 2⟩ "t1" rfl

/-- C2 counterexample: from the empty state, `login` on a user whose
primary-key value is absent does raise `MissingIdentifier`, but afterwards
`GuardState.user` is set to that user — the claim's "GuardState.user remains
unset after the failure" is false, because the source assigns `this.user`
before it checks the primary-key value. -/
theorem login_missing_pk_counterexample :
    (login env0 emptyState ⟨JSVal.undef⟩ "t2").2 = Except.error AuthError.missingUid ∧
    (login env0 emptyState ⟨JSVal.undef⟩ "t2").1.user = some ⟨JSVal.undef⟩ ∧
    (login env0 emptyState ⟨JSVal.undef⟩ "t2").1.user ≠ none :=
  ⟨rfl, rfl, by decide⟩

/-- C2 amended: for every anonymous state and every user whose primary-key
value is falsy (null/absent), `login` fails with `MissingIdentifier` and the
only mutation the failed call leaves behind is `GuardState.user` set to that
unkeyable user — the assignment precedes the check, so the user does not remain
unset; the remember duration and the persisted session are untouched. -/
theorem login_missing_pk_raises_after_setting_user (e : Env) (s : AuthState)
    (u : User) (tok : String) (h1 : s.user = none) (h2 : truthy u.id = false) :
    login e s u tok = ({ s with user := some u }, Except.error AuthError.missingUid) :=
  login_missing_pk_state e s u tok h1 h2

/-- C2 amended witness: concrete anonymous state and unkeyable user. -/
theorem login_missing_pk_raises_after_setting_user_witness :
    login env0 emptyState ⟨JSVal.undef⟩ "t3" =
      ({ emptyState with user := some ⟨JSVal.undef⟩ }, Except.error AuthError.missingUid) :=
  login_missing_pk_raises_after_setting_user env0 emptyState ⟨JSVal.undef⟩ "t3" rfl rfl

/-- C3: the pending remember duration is consumed exactly once per login —
after any successful `login` the `Resetable` is back at `0` ("none") whether or
not a token was issued, and any `login` that starts with no pending duration
persists no remember token and writes no remember cookie. -/
theorem login_consumes_remember_duration (e : Env) (s : AuthState) (u : User)
    (tok : String) :
    (∀ u2, (login e s u tok).2 = Except.ok u2 →
        (login e s u tok).1.rememberTokenDuration = JSVal.num 0) ∧
    (s.rememberTokenDuration = JSVal.num 0 →
        (login e s u tok).1.savedTokens = s.savedTokens ∧
        (login e s u tok).1.respCookie = s.respCookie) := by
  constructor
  · intro u2 hok
    by_cases hu : s.user.isSome
    · simp [login, hu] at hok
    · by_cases hpk : truthy (primaryKeyValue { s with user := some u }) = true
      · have h2 : truthy u.id = true := by simpa [primaryKeyValue] using hpk
        have h1 : s.user = none := Option.not_isSome_iff_eq_none.mp (by simpa using hu)
        exact (login_success_state e s u tok h1 h2).2.2.2.1
      · simp [login, hu, hpk] at hok
  · intro h0
    exact login_falsy_no_token e s u tok (by rw [h0]; rfl)

/-- C3 witness: a successful login from the empty state resets the duration
and, starting from a zero duration, mints nothing. -/
theorem login_consumes_remember_duration_witness :
    (login env0 emptyState ⟨JSVal.num 1⟩ "t4").1.rememberTokenDuration = JSVal.num 0 ∧
    (login env0 emptyState ⟨JSVal.num 1⟩ "t4").1.savedTokens = emptyState.savedTokens ∧
    (login env0 emptyState ⟨JSVal.num 1⟩ "t4").1.respCookie = emptyState.respCookie :=
  ⟨(login_consumes_remember_duration env0 emptyState ⟨JSVal.num 1⟩ "t4").1 ⟨JSVal.num 1⟩ rfl,
   (login_consumes_remember_duration env0 emptyState ⟨JSVal.num 1⟩ "t4").2 rfl⟩

/-- C4 counterexample: with a five-year duration already pending, `remember(0)`
and `remember(false)` leave the pending duration exactly as it was (they fall
through every branch), so the claim's "in every case, including the 0/false
case, setting a new value overwrites any previously pending unconsumed
duration" is false: a subsequent login still mints the stale five-year
cookie. -/
theorem remember_zero_counterexample :
    remember env0 sPend (JSVal.num 0) = sPend ∧
    remember env0 sPend (JSVal.bool false) = sPend ∧
    truthy sPend.rememberTokenDuration = true ∧
    (login env0 (remember env0 sPend (JSVal.num 0)) ⟨JSVal.num 1⟩ "t5").1.respCookie
      = CookieOut.setTo "t5" (JSVal.num 157788000000) := by
  refine ⟨by decide, by decide, rfl, by decide⟩

/-- C4 amended: `remember` maps its input as the spec's table states — `true`
or the literal `1` yield the five-year default, a string yields its `ms`-parsed
span, any other non-zero non-false value (the absent value included) is stored
as given, and storing overwrites any pending duration — except that `0` and
`false` do not overwrite: they leave the previously pending duration unchanged.
The absent value, once stored, is falsy, so no token is minted by the next
login. -/
theorem remember_mapping (e : Env) (s : AuthState) :
    remember e s (JSVal.bool true) = { s with rememberTokenDuration := e.ms "5y" } ∧
    remember e s (JSVal.num 1) = { s with rememberTokenDuration := e.ms "5y" } ∧
    (∀ d, remember e s (JSVal.str d) = { s with rememberTokenDuration := e.ms d }) ∧
    (∀ n : Int, n ≠ 0 → n ≠ 1 →
        remember e s (JSVal.num n) = { s with rememberTokenDuration := JSVal.num n }) ∧
    remember e s JSVal.undef = { s with rememberTokenDuration := JSVal.undef } ∧
    (∀ u tok, (login e (remember e s JSVal.undef) u tok).1.savedTokens = s.savedTokens ∧
        (login e (remember e s JSVal.undef) u tok).1.respCookie = s.respCookie) ∧
    remember e s (JSVal.num 0) = s ∧
    remember e s (JSVal.bool false) = s := by
  refine ⟨by simp [remember], by simp [remember], fun d => by simp [remember], ?_, ?_, ?_, ?_, ?_⟩
  · intro n hn0 hn1
    simp [remember, hn0, hn1]
  · simp [remember]
  · intro u tok
    have hrem : remember e s JSVal.undef = { s with rememberTokenDuration := JSVal.undef } := by
      simp [remember]
    rw [hrem]
    exact login_falsy_no_token e _ u tok rfl
  · simp [remember]
  · simp [remember]

/-- C4 amended witness: concrete evaluations of each row of the table. -/
theorem remember_mapping_witness :
    remember env0 sPend (JSVal.bool true) =
      { sPend with rememberTokenDuration := env0.ms "5y" } ∧
    remember env0 sPend (JSVal.num 7) =
      { sPend with rememberTokenDuration := JSVal.num 7 } ∧
    remember env0 sPend (JSVal.num 0) = sPend ∧
    remember env0 sPend (JSVal.bool false) = sPend :=
  ⟨(remember_mapping env0 sPend).1,
   (remember_mapping env0 sPend).2.2.2.1 7 (by decide) (by decide),
   (remember_mapping env0 sPend).2.2.2.2.2.2.1,
   (remember_mapping env0 sPend).2.2.2.2.2.2.2⟩

/-- C5: with no in-memory user, `check()` restores the session. With a truthy
session key present it resolves via `findById`, sets `GuardState.user` to the
result, leaves `viaRemember` at false, and returns whether a user was found;
with only a valid remember token present (resolving to a keyable user) it
resolves via `findByRememberToken` and performs a full login, so it returns
true, sets the user, and freshly writes the primary-key value into the
session. -/
theorem check_restores_session_and_remember (e : Env) (s : AuthState)
    (v : JSVal) (u : User) (tok : String) :
    (s.user = none → s.session = some v → truthy v = true →
        check e s tok = ({ s with user := e.findById v }, (e.findById v).isSome) ∧
        (s.viaRemember = false → (check e s tok).1.viaRemember = false)) ∧
    (s.user = none → s.session = none → truthy s.reqCookie = true →
        e.findByRememberToken s.reqCookie = some u → truthy u.id = true →
        (check e s tok).2 = true ∧
        (check e s tok).1.user = some u ∧
        (check e s tok).1.session = some u.id) := by
  constructor
  · intro h1 h2 h3
    have hu : s.user.isSome = false := by rw [h1]; rfl
    have hck : check e s tok = ({ s with user := e.findById v }, (e.findById v).isSome) := by
      simp [check, hu, h2, h3]
    refine ⟨hck, fun hv => ?_⟩
    rw [hck]
    exact hv
  · intro h1 h2 h3 h4 h5
    have hu : s.user.isSome = false := by rw [h1]; rfl
    have hck : check e s tok = ((login e s u tok).1, true) := by
      simp [check, hu, h2, h3, h4]
    have hls := login_success_state e s u tok h1 h5
    rw [hck]
    exact ⟨rfl, hls.2.1, hls.2.2.1⟩

/-- C5 witness: a valid session key restores "alice" with `viaRemember` false,
and a valid remember token alone triggers a full login that rewrites the
session key. -/
theorem check_restores_session_and_remember_witness :
    check env0 sSess "t6" = ({ sSess with user := some ⟨JSVal.num 1⟩ }, true) ∧
    (check env0 sSess "t6").1.viaRemember = false ∧
    (check env0 sRem "t6").2 = true ∧
    (check env0 sRem "t6").1.user = some ⟨JSVal.num 1⟩ ∧
    (check env0 sRem "t6").1.session = some (JSVal.num 1) := by
  have h1 := (check_restores_session_and_remember env0 sSess (JSVal.num 1)
    ⟨JSVal.num 1⟩ "t6").1 rfl rfl rfl
  have h2 := (check_restores_session_and_remember env0 sRem (JSVal.num 1)
    ⟨JSVal.num 1⟩ "t6").2 rfl rfl (by decide) (by decide) rfl
  exact ⟨h1.1, h1.2 rfl, h2.1, h2.2.1, h2.2.2⟩

/-- C6: `logout()` unconditionally clears the user to null and `viaRemember`
to false, forgets the session entry and clears the remember cookie, touching
nothing else; it is idempotent — `logout ∘ logout = logout`, so on an
already-anonymous guard it changes nothing and raises nothing. -/
theorem logout_clears_and_idempotent (s : AuthState) :
    logout s =
      { s with
          user := none
          viaRemember := false
          session := none
          respCookie := CookieOut.cleared } ∧
    logout (logout s) = logout s :=
  ⟨rfl, rfl⟩

/-- C7: `validate` raises `UserNotFound` with the interpolated message (key
name and value) when no user resolves, raises `PasswordMismatch` when
verification fails, returns the user when `returnUser` is truthy and the
boolean `true` otherwise, and never returns `false`; it takes no guard state
at all (the source reads only the serializer and the config). -/
theorem validate_behavior (e : Env) (uid password : String) (returnUser : Bool) :
    (e.findByUid uid = none →
        validate e uid password returnUser =
          Except.error (AuthError.userNotFound
            ("Cannot find user with " ++ e.uidField ++ " as " ++ uid))) ∧
    (∀ u, e.findByUid uid = some u → e.validateCredentails u password = false →
        validate e uid password returnUser =
          Except.error (AuthError.passwordMisMatch "Cannot verify user password")) ∧
    (∀ u, e.findByUid uid = some u → e.validateCredentails u password = true →
        validate e uid password returnUser =
          Except.ok (if returnUser then VRes.usr u else VRes.flag true)) ∧
    validate e uid password returnUser ≠ Except.ok (VRes.flag false) := by
  refine ⟨?_, ?_, ?_, ?_⟩
  · intro h
    simp [validate, h]
  · intro u h hc
    simp [validate, h, hc]
  · intro u h hc
    simp [validate, h, hc]
  · unfold validate
    match e.findByUid uid with
    | none => simp
    | some u =>
        by_cases hc : e.validateCredentails u password = true
        · cases returnUser <;> simp [hc]
        · simp [hc]

/-- C7 witness: the three outcomes and the never-false fact at concrete
credentials against the known user "alice". -/
theorem validate_behavior_witness :
    validate env0 "alice" "correct-pw" true = Except.ok (VRes.usr ⟨JSVal.num 1⟩) ∧
    validate env0 "bob" "x" true =
      Except.error (AuthError.userNotFound "Cannot find user with email as bob") ∧
    validate env0 "alice" "wrong" true =
      Except.error (AuthError.passwordMisMatch "Cannot verify user password") ∧
    validate env0 "alice" "correct-pw" false ≠ Except.ok (VRes.flag false) := by
  have h := validate_behavior env0 "alice" "correct-pw" true
  have h2 := validate_behavior env0 "bob" "x" true
  have h3 := validate_behavior env0 "alice" "wrong" true
  have h4 := validate_behavior env0 "alice" "correct-pw" false
  exact ⟨h.2.2.1 ⟨JSVal.num 1⟩ (by decide) (by decide),
         h2.1 (by decide),
         h3.2.1 ⟨JSVal.num 1⟩ (by decide) (by decide),
         h4.2.2.2⟩

/-- C8: `attempt(uid, password)` is extensionally the composition
`validate(uid, password, returnUser=true)` then `login`: it equals the
spec-side composition on every input, returns exactly what `login` returns
(state and session write included) when validation succeeds, propagates a
validation failure unchanged, and the boolean outcome of `validate` is
unreachable on this path. -/
theorem attempt_is_validate_then_login (e : Env) (s : AuthState)
    (uid password tok : String) :
    attempt e s uid password tok = attemptFromSpec e s uid password tok ∧
    (∀ err, validate e uid password true = Except.error err →
        attempt e s uid password tok = (s, Except.error err)) ∧
    (∀ u, validate e uid password true = Except.ok (VRes.usr u) →
        attempt e s uid password tok = login e s u tok) ∧
    (∀ b, validate e uid password true ≠ Except.ok (VRes.flag b)) := by
  refine ⟨rfl, ?_, ?_, validate_true_gives_user e uid password⟩
  · intro err h
    simp [attempt, h]
  · intro u h
    simp [attempt, h]

/-- C8 witness: for "alice"/"correct-pw", `attempt` equals `login` on the
resolved user; for an unknown uid it propagates the `UserNotFound` failure
unchanged. -/
theorem attempt_is_validate_then_login_witness :
    attempt env0 emptyState "alice" "correct-pw" "t7" =
      login env0 emptyState ⟨JSVal.num 1⟩ "t7" ∧
    attempt env0 emptyState "bob" "x" "t7" =
      (emptyState,
        Except.error (AuthError.userNotFound "Cannot find user with email as bob")) := by
  have h := attempt_is_validate_then_login env0 emptyState "alice" "correct-pw" "t7"
  have h2 := attempt_is_validate_then_login env0 emptyState "bob" "x" "t7"
  exact ⟨h.2.2.1 ⟨JSVal.num 1⟩ rfl,
         h2.2.1 (AuthError.userNotFound "Cannot find user with email as bob") rfl⟩

/-- C9: `check()` converts absence to `false` rather than failing: when
neither a session key nor a remember token is present it returns `false` with
the state untouched, and when a present session key's id no longer resolves it
also returns `false` with the state untouched; `getUser()` returns null (not a
failure) in both cases. In the embedding `check` has no failure outcome at
all, matching the source, which never raises `UserNotFound`. -/
theorem check_absence_returns_false (e : Env) (s : AuthState) (v : JSVal)
    (tok : String) :
    (s.user = none → s.session = none → s.reqCookie = JSVal.undef →
        check e s tok = (s, false) ∧ getUser e s tok = (s, none)) ∧
    (s.user = none → s.session = some v → truthy v = true → e.findById v = none →
        check e s tok = (s, false) ∧ (getUser e s tok).2 = none) := by
  constructor
  · intro h1 h2 h3
    have hu : s.user.isSome = false := by rw [h1]; rfl
    have hck : check e s tok = (s, false) := by
      simp [check, hu, h2, h3]
    exact ⟨hck, by simp [getUser, hck, h1]⟩
  · intro h1 h2 h3 h4
    have hu : s.user.isSome = false := by rw [h1]; rfl
    have hck : check e s tok = ({ s with user := none }, false) := by
      simp [check, hu, h2, h3, h4]
    have hs : ({ s with user := none } : AuthState) = s := by
      cases s
      simp_all
    rw [hs] at hck
    exact ⟨hck, by simp [getUser, hck, h1]⟩

/-- C9 witness: the fully-anonymous state and a stale session id both yield
`false` and a null user with no state change. -/
theorem check_absence_returns_false_witness :
    (check env0 emptyState "t8" = (emptyState, false) ∧
      getUser env0 emptyState "t8" = (emptyState, none)) ∧
    (check env0 sStale "t8" = (sStale, false) ∧
      (getUser env0 sStale "t8").2 = none) :=
  ⟨(check_absence_returns_false env0 emptyState JSVal.undef "t8").1 rfl rfl rfl,
   (check_absence_returns_false env0 sStale (JSVal.num 99) "t8").2 rfl rfl
     (by decide) (by decide)⟩

/-- C10 (implicit): on the remember-token path the inner `login` promise is
not awaited, so when the token resolves to a user whose primary-key value is
absent, `check()` still returns `true`, leaves `GuardState.user` set to that
unkeyable user, never writes the session key, and `login`'s
`MissingIdentifier` failure never reaches `check`'s caller (in the embedding
`check` has no failure outcome). -/
theorem check_unawaited_login_swallows_missing_pk (e : Env) (s : AuthState)
    (u : User) (tok : String) (h1 : s.user = none) (h2 : s.session = none)
    (h3 : truthy s.reqCookie = true)
    (h4 : e.findByRememberToken s.reqCookie = some u)
    (h5 : truthy u.id = false) :
    check e s tok = ({ s with user := some u }, true) ∧
    (check e s tok).1.session = none := by
  have hu : s.user.isSome = false := by rw [h1]; rfl
  have hck : check e s tok = ((login e s u tok).1, true) := by
    simp [check, hu, h2, h3, h4]
  rw [login_missing_pk_state e s u tok h1 h5] at hck
  refine ⟨hck, ?_⟩
  rw [hck]
  exact h2

/-- C10 witness: the "ghost" token resolves to an unkeyable user; `check`
returns true anyway and the session stays unwritten. -/
theorem check_unawaited_login_swallows_missing_pk_witness :
    check env0 sGhost "t9" = ({ sGhost with user := some ⟨JSVal.undef⟩ }, true) ∧
    (check env0 sGhost "t9").1.session = none :=
  check_unawaited_login_swallows_missing_pk env0 sGhost ⟨JSVal.undef⟩ "t9" rfl rfl
    (by decide) (by decide) rfl

end AdonisAuth
